import Mathlib

/-!
Shallow embedding of the tic-tac-toe game-session core: the board logic
(`board.py`, `utils.py`), the move chooser (`player.py`, `prompts.py`) and
the game state machine (`game.py`).  Python `None` is modelled by `Option`,
mutation by explicit state passing, the external LLM call and the
pseudo-random source by an explicit oracle argument, and the CSV logger by
lists of event records carried in the game state.  Wall-clock time
(`time.time()`, `datetime.now()`) is not modelled; the measured response
latency enters as an oracle field.
-/

namespace TicTacToe

/-- A board cell: `none` models Python `None` (empty), `some s` a placed
symbol string. -/
abbrev Cell := Option String

/-- The 3×3 grid (`Board.board` in `board.py`): a list of row lists. -/
abbrev Grid := List (List Cell)

/-- A move: the `(row, col)` pair of Python ints used throughout the code. -/
abbrev Move := Int × Int

/-- Reads `board[r][c]`.  Out-of-shape reads default to `none`; the Python
code only indexes inside the 0..2 range on 3×3 boards, where this agrees. -/
def cellAt (b : Grid) (r c : Nat) : Cell := ((b[r]?.getD [])[c]?.getD none)

/-- One line check from `utils.check_winner`: Python's
`a == b == c and a is not None` returning `a` on success, else falling
through (`none`). -/
def line_winner (x y z : Cell) : Option String :=
  if x = y ∧ y = z then x else none

/-- Embeds `utils.check_winner`: scans the 3 rows (in board order), then columns
0,1,2, then the two diagonals, returning the first completed line's
symbol. -/
def check_winner (b : Grid) : Option String :=
  (b.findSome? fun row =>
    line_winner (row[0]?.getD none) (row[1]?.getD none) (row[2]?.getD none))
  <|> ((List.range 3).findSome? fun c =>
    line_winner (cellAt b 0 c) (cellAt b 1 c) (cellAt b 2 c))
  <|> line_winner (cellAt b 0 0) (cellAt b 1 1) (cellAt b 2 2)
  <|> line_winner (cellAt b 0 2) (cellAt b 1 1) (cellAt b 2 0)

/-- Embeds `utils.is_board_full`: true iff no cell is `None`. -/
def is_board_full (b : Grid) : Bool :=
  b.all fun row => row.all fun c => !c.isNone

/-- Embeds `utils.get_available_moves`: all empty cells in row-major order, as
int pairs, iterating `range(3) × range(3)`. -/
def get_available_moves (b : Grid) : List Move :=
  (List.range 3).flatMap fun r => (List.range 3).filterMap fun c =>
    if cellAt b r c = none then some ((r : Int), (c : Int)) else none

/-- Writes cell `(r, c)`; out-of-shape writes are no-ops (Python only
writes inside the 0..2 range on 3×3 boards, where this agrees). -/
def setCell (b : Grid) (r c : Nat) (v : Cell) : Grid :=
  b.set r ((b[r]?.getD []).set c v)

namespace Board

/-- Embeds `Board.make_move` from `board.py`: rejects out-of-range coordinates and
occupied cells (returning `false` with the grid unchanged), otherwise
places the symbol and returns `true`. -/
def make_move (b : Grid) (row col : Int) (symbol : String) : Bool × Grid :=
  if row < 0 ∨ row > 2 ∨ col < 0 ∨ col > 2 then (false, b)
  else if (cellAt b row.toNat col.toNat).isSome then (false, b)
  else (true, setCell b row.toNat col.toNat (some symbol))

end Board

/-- Embeds `Board.__init__` / `Board.reset`: the empty 3×3 grid. -/
def emptyGrid : Grid :=
  [[none, none, none], [none, none, none], [none, none, none]]

/-- The boards actually produced by `board.py` are 3×3 (stated as the
explicit nine-cell form, which every proof destructs). -/
def Shaped (b : Grid) : Prop :=
  ∃ x00 x01 x02 x10 x11 x12 x20 x21 x22,
    b = [[x00, x01, x02], [x10, x11, x12], [x20, x21, x22]]

/-- Number of empty cells of the grid. -/
def countEmpty (b : Grid) : Nat := b.flatten.countP fun c => c.isNone

/-! ## Model of Python `json.loads` (used by `Player._parse_llm_response`)

JSON floats are not modelled: a numeral containing a fraction or exponent
fails to parse in this model (no claim depends on float payloads).
Unicode surrogate pairs in string escapes are likewise out of scope. -/

/-- A decoded Python `json` value. -/
inductive Json where
  | null
  | bool (b : Bool)
  | num (n : Int)
  | str (s : String)
  | arr (xs : List Json)
  | obj (kvs : List (String × Json))
deriving Repr

/-- The double-quote character. -/
def quoteChar : Char := Char.ofNat 34

/-- The backslash character. -/
def backslashChar : Char := Char.ofNat 92

/-- Opening curly brace. -/
def lbrace : Char := Char.ofNat 123

/-- Closing curly brace. -/
def rbrace : Char := Char.ofNat 125

/-- JSON whitespace (exactly the characters `json.loads` skips). -/
def jsonWs (c : Char) : Bool :=
  c = ' ' || c = Char.ofNat 9 || c = Char.ofNat 10 || c = Char.ofNat 13

/-- Drop leading JSON whitespace. -/
def skipWs : List Char → List Char
  | [] => []
  | c :: cs => if jsonWs c then skipWs cs else c :: cs

/-- Hex digit value. -/
def hexVal (c : Char) : Option Nat :=
  if c.isDigit then some (c.toNat - 48)
  else if 'a' ≤ c ∧ c ≤ 'f' then some (c.toNat - 87)
  else if 'A' ≤ c ∧ c ≤ 'F' then some (c.toNat - 55)
  else none

/-- Body of a JSON string literal (after the opening quote), with the
common escapes. -/
def parseStringBody : Nat → List Char → Option (String × List Char)
  | 0, _ => none
  | _, [] => none
  | fuel + 1, c :: rest =>
    if c = quoteChar then some ("", rest)
    else if c = backslashChar then
      match rest with
      | [] => none
      | e :: rest2 =>
        let esc : Option (Char × List Char) :=
          if e = quoteChar then some (quoteChar, rest2)
          else if e = backslashChar then some (backslashChar, rest2)
          else if e = '/' then some ('/', rest2)
          else if e = 'b' then some (Char.ofNat 8, rest2)
          else if e = 'f' then some (Char.ofNat 12, rest2)
          else if e = 'n' then some (Char.ofNat 10, rest2)
          else if e = 'r' then some (Char.ofNat 13, rest2)
          else if e = 't' then some (Char.ofNat 9, rest2)
          else if e = 'u' then
            match rest2 with
            | h1 :: h2 :: h3 :: h4 :: rest3 =>
              match hexVal h1, hexVal h2, hexVal h3, hexVal h4 with
              | some a, some b, some c2, some d =>
                some (Char.ofNat (((a * 16 + b) * 16 + c2) * 16 + d), rest3)
              | _, _, _, _ => none
            | _ => none
          else none
        match esc with
        | some (ch, rest3) =>
          (parseStringBody fuel rest3).map fun p => (String.singleton ch ++ p.1, p.2)
        | none => none
    else (parseStringBody fuel rest).map fun p => (String.singleton c ++ p.1, p.2)

/-- Digit run to a natural number. -/
def digitsToNat (ds : List Char) : Nat :=
  ds.foldl (fun acc c => acc * 10 + (c.toNat - 48)) 0

/-- A strict JSON integer numeral: optional minus, no leading zeros, and no
fraction/exponent (floats unmodelled, see above). -/
def parseIntToken (cs : List Char) : Option (Int × List Char) :=
  let signed := match cs with
    | c :: t => if c = '-' then (true, t) else (false, cs)
    | [] => (false, cs)
  let ds := signed.2.takeWhile (·.isDigit)
  let rest := signed.2.dropWhile (·.isDigit)
  if ds = [] then none
  else if ds.length > 1 ∧ ds.headD '0' = '0' then none
  else match rest with
    | e :: _ =>
      if e = '.' ∨ e = 'e' ∨ e = 'E' then none
      else some (if signed.1 then -(digitsToNat ds : Int) else (digitsToNat ds : Int), rest)
    | [] => some (if signed.1 then -(digitsToNat ds : Int) else (digitsToNat ds : Int), rest)

/-- Check that a literal keyword is next, returning the remainder. -/
def expectChars : List Char → List Char → Option (List Char)
  | [], cs => some cs
  | k :: ks, c :: cs => if c = k then expectChars ks cs else none
  | _ :: _, [] => none

mutual

/-- One JSON value. -/
def parseVal : Nat → List Char → Option (Json × List Char)
  | 0, _ => none
  | fuel + 1, cs =>
    match skipWs cs with
    | [] => none
    | c :: rest =>
      if c = quoteChar then (parseStringBody fuel rest).map fun p => (Json.str p.1, p.2)
      else if c = lbrace then
        match skipWs rest with
        | d :: rest2 =>
          if d = rbrace then some (Json.obj [], rest2)
          else parseMembers fuel (d :: rest2)
        | [] => none
      else if c = '[' then
        match skipWs rest with
        | d :: rest2 =>
          if d = ']' then some (Json.arr [], rest2)
          else (parseElems fuel (d :: rest2)).map fun p => (Json.arr p.1, p.2)
        | [] => none
      else if c = 't' then (expectChars ['r', 'u', 'e'] rest).map fun r => (Json.bool true, r)
      else if c = 'f' then (expectChars ['a', 'l', 's', 'e'] rest).map fun r => (Json.bool false, r)
      else if c = 'n' then (expectChars ['u', 'l', 'l'] rest).map fun r => (Json.null, r)
      else (parseIntToken (c :: rest)).map fun p => (Json.num p.1, p.2)

/-- Members of a JSON object (after at least one is known to follow). -/
def parseMembers : Nat → List Char → Option (Json × List Char)
  | 0, _ => none
  | fuel + 1, cs =>
    match cs with
    | c :: rest =>
      if c = quoteChar then
        match parseStringBody fuel rest with
        | some (k, rest2) =>
          match skipWs rest2 with
          | colon :: rest3 =>
            if colon = ':' then
              match parseVal fuel rest3 with
              | some (v, rest4) =>
                match skipWs rest4 with
                | comma :: rest5 =>
                  if comma = ',' then
                    match parseMembers fuel (skipWs rest5) with
                    | some (Json.obj kvs, rest6) => some (Json.obj ((k, v) :: kvs), rest6)
                    | _ => none
                  else if comma = rbrace then some (Json.obj [(k, v)], rest5)
                  else none
                | [] => none
              | none => none
            else none
          | [] => none
        | none => none
      else none
    | [] => none

/-- Elements of a JSON array (after at least one is known to follow). -/
def parseElems : Nat → List Char → Option (List Json × List Char)
  | 0, _ => none
  | fuel + 1, cs =>
    match parseVal fuel cs with
    | some (v, rest) =>
      match skipWs rest with
      | comma :: rest2 =>
        if comma = ',' then
          match parseElems fuel rest2 with
          | some (vs, rest3) => some (v :: vs, rest3)
          | none => none
        else if comma = ']' then some ([v], rest2)
        else none
      | [] => none
    | none => none

end

/-- Model of `json.loads`: parse one value and require only whitespace to
remain; `none` models `json.JSONDecodeError`. -/
def json_loads (s : String) : Option Json :=
  match parseVal (s.length * 2 + 16) s.toList with
  | some (v, rest) => if (skipWs rest).isEmpty then some v else none
  | none => none

/-! ## `Player._parse_llm_response` (player.py lines 184–223) -/

/-- A Python-level value: `none` is Python `None`, `some j` a non-`None`
value decoded from JSON. -/
def pyVal : Json → Option Json
  | Json.null => none
  | v => some v

/-- Embeds `dict.get k` on a dict built by `json.loads` (with duplicate keys the
last occurrence wins, as in CPython). -/
def dictGet (kvs : List (String × Json)) (k : String) : Option Json :=
  ((kvs.reverse.find? fun p => p.1 = k).map fun p => p.2)

/-- Embeds `dict.get k` seen at the Python level: a stored JSON `null` is the
Python value `None`, indistinguishable from a missing key when the default
is `None`. -/
def pyGet (kvs : List (String × Json)) (k : String) : Option Json :=
  (dictGet kvs k).bind pyVal

/-- Python type name of a decoded value (for modelled error messages). -/
def pyTypeName : Json → String
  | Json.null => "NoneType"
  | Json.bool _ => "bool"
  | Json.num _ => "int"
  | Json.str _ => "str"
  | Json.arr _ => "list"
  | Json.obj _ => "dict"

/-- Outcome of Python `int(x)`.  A `ValueError` is caught by the `except`
clause of `_parse_llm_response`; a `TypeError` is not in that clause and
propagates.  (Message texts are abridged models of CPython's.) -/
inductive PyIntRes where
  | ok (n : Int)
  | valueError (msg : String)
  | typeError (msg : String)
deriving Repr, DecidableEq

/-- Python whitespace for `str.strip()` / `int(str)`. -/
def pyWsChar (c : Char) : Bool :=
  c = ' ' || c = Char.ofNat 9 || c = Char.ofNat 10 || c = Char.ofNat 13
    || c = Char.ofNat 11 || c = Char.ofNat 12

/-- Python `str.strip()` (ASCII whitespace; exotic unicode spaces are not
modelled). -/
def pyStrip (s : String) : String :=
  String.mk (((s.toList.dropWhile pyWsChar).reverse.dropWhile pyWsChar).reverse)

/-- Does the list start with the given separator? -/
def listStartsWith : List Char → List Char → Bool
  | [], _ => true
  | _ :: _, [] => false
  | s :: ss, c :: cs => s = c && listStartsWith ss cs

/-- Worker for Python `str.split(sep)`: scan left to right, cutting at each
non-overlapping occurrence of the (non-empty) separator. -/
def pySplitGo (sep : List Char) : Nat → List Char → List Char → List (List Char)
  | 0, acc, _ => [acc.reverse]
  | fuel + 1, acc, cs =>
    match cs with
    | [] => [acc.reverse]
    | c :: rest =>
      if listStartsWith sep cs then
        acc.reverse :: pySplitGo sep fuel [] (cs.drop sep.length)
      else pySplitGo sep fuel (c :: acc) rest

/-- Python `str.split(sep)` for a non-empty separator. -/
def pySplit (s sep : String) : List String :=
  (pySplitGo sep.toList (s.length + 1) [] s.toList).map String.mk

/-- Embeds `int(s)` on a string: surrounding whitespace, an optional sign and a
digit run (digit-group underscores are not modelled). -/
def strToInt (s : String) : Option Int :=
  let cs := (pyStrip s).toList
  let signed := match cs with
    | c :: t => if c = '-' then (true, t) else if c = '+' then (false, t) else (false, cs)
    | [] => (false, cs)
  if signed.2 ≠ [] ∧ signed.2.all (·.isDigit) then
    some (if signed.1 then -(digitsToNat signed.2 : Int) else (digitsToNat signed.2 : Int))
  else none

/-- Python `int(x)` on a decoded JSON value. -/
def pyInt : Json → PyIntRes
  | Json.num n => PyIntRes.ok n
  | Json.bool b => PyIntRes.ok (if b then 1 else 0)
  | Json.str s =>
    match strToInt s with
    | some n => PyIntRes.ok n
    | none => PyIntRes.valueError ("invalid literal for int() with base 10: " ++ s)
  | v => PyIntRes.typeError ("int() argument must be a string or a real number, not " ++ pyTypeName v)

/-- Embeds `.get` called on a non-dict raises `AttributeError` (abridged message). -/
def attrErrMsg (j : Json) : String :=
  pyTypeName j ++ " object has no attribute get"

/-- Python `sep in s` for a nonempty separator. -/
def strContains (s sep : String) : Bool := (pySplit s sep).length > 1

/-- Lines 201–207 of `player.py`: strip the response, then take the text
after the first occurrence of the marker three-backticks-`json` up to the
next plain fence if that marker occurs, else the text between the first
two plain three-backtick fences, else the whole response; strip again. -/
def extractPayload (response : String) : String :=
  let r := pyStrip response
  if strContains r "```json" then
    pyStrip ((pySplit ((pySplit r "```json")[1]?.getD "") "```")[0]?.getD "")
  else if strContains r "```" then
    pyStrip ((pySplit ((pySplit r "```")[1]?.getD "") "```")[0]?.getD "")
  else r

/-- Embeds `Player._parse_llm_response`.  `.ok (move, reasoning)` models a normal
return; `.error msg` models an exception escaping the method: an
`AttributeError` from `data.get` when the decoded payload is not an
object, or a `TypeError` from `int()` on a list/dict value.  Both are
outside the method's `except (JSONDecodeError, ValueError, KeyError)`
clause and are absorbed by the blanket `except Exception` of
`_choose_move_llm`.  A decode or missing-field failure returns
`(None, None)`. -/
def parse_llm_response (response : String) : Except String (Option Move × Option Json) :=
  match json_loads (extractPayload response) with
  | none => Except.ok (none, none)
  | some (Json.obj kvs) =>
    let row := pyGet kvs "row"
    let col := pyGet kvs "col"
    let reasoning : Option Json :=
      match dictGet kvs "reasoning" with
      | none => some (Json.str "No reasoning provided")
      | some v => pyVal v
    if row.isSome ∧ col.isSome then
      match pyInt (row.getD Json.null) with
      | PyIntRes.typeError m => Except.error m
      | PyIntRes.valueError _ => Except.ok (none, none)
      | PyIntRes.ok ri =>
        match pyInt (col.getD Json.null) with
        | PyIntRes.typeError m => Except.error m
        | PyIntRes.valueError _ => Except.ok (none, none)
        | PyIntRes.ok ci => Except.ok (some (ri, ci), reasoning)
    else Except.ok (none, none)
  | some data => Except.error (attrErrMsg data)

/-! ## `prompts.get_move_prompt` -/

/-- Cell rendering in `get_move_prompt`: `cell if cell else " "` (both
`None` and the empty string are falsy and render as a space). -/
def promptCell : Cell → String
  | some s => if s = "" then " " else s
  | none => " "

/-- One board row line: `f" {row_idx} |"` extended by `f" {symbol} |"`
per cell. -/
def promptRow (idx : Nat) (row : List Cell) : String :=
  row.foldl (fun acc c => acc ++ " " ++ promptCell c ++ " |") (" " ++ toString idx ++ " |")

/-- Embeds `prompts.get_move_prompt`: the board drawing, the acting symbol, the
available-move list and the fixed instructions. -/
def get_move_prompt (board_state : Grid) (player_symbol : String)
    (available_moves : List Move) : String :=
  let rowLines := (board_state.enum.map fun p =>
    [promptRow p.1 p.2, "   +---+---+---+"]).flatten
  let board_str := String.intercalate "\n"
    (["\nCurrent Board State:", "     0   1   2", "   +---+---+---+"] ++ rowLines)
  let moves_str := String.intercalate ", "
    (available_moves.map fun m => "(" ++ toString m.1 ++ "," ++ toString m.2 ++ ")")
  board_str ++ "\n\nYou are playing as: " ++ player_symbol
    ++ "\nAvailable moves (row, col): " ++ moves_str
    ++ "\n\nAnalyze the board and choose your best move. Consider:"
    ++ "\n1. Can you win on this move?"
    ++ "\n2. Must you block opponent from winning?"
    ++ "\n3. Strategic positioning (center, corners, sides)"
    ++ "\n\nRespond with JSON only: \x7b\"row\": <int>, \"col\": <int>, \"reasoning\": \"<brief explanation>\"\x7d"

/-! ## `Player` (player.py) -/

/-- Player state.  `hasAgent` models `self.agent is not None`; the float
`temperature` configuration is not modelled (it is only forwarded to the
external call and has no algorithmic role). -/
structure Player where
  symbol : String
  name : String
  use_llm : Bool
  hasAgent : Bool
  provider : String
  model : String
  move_history : List (Option Move)
  last_prompt : Option String
  last_response : Option String
  last_reasoning : Option Json
  last_response_time : Option Nat
deriving Repr

/-- Embeds `Player(symbol, name)` with defaults: no LLM, no agent. -/
def Player.mkDefault (symbol name : String) : Player :=
  { symbol := symbol, name := name, use_llm := false, hasAgent := false,
    provider := "openai", model := "gpt-4o-mini", move_history := [],
    last_prompt := none, last_response := none, last_reasoning := none,
    last_response_time := none }

/-- Embeds `Player.get_player_type`. -/
def Player.get_player_type (p : Player) : String :=
  if p.use_llm then "llm" else "random"

/-- Embeds `Player.get_model_name`. -/
def Player.get_model_name (p : Player) : Option String :=
  if p.use_llm then some p.model else none

/-- The metadata dict built in `_choose_move_llm`. -/
structure LlmMetadata where
  prompt : Option String := none
  response : Option String := none
  reasoning : Option Json := none
  response_time_ms : Option Nat := none
  error : Option String := none
deriving Repr

/-- The metadata dict built in `choose_move` (always carries
`player_type`). -/
structure MoveMetadata where
  player_type : String
  prompt : Option String := none
  response : Option String := none
  reasoning : Option Json := none
  response_time_ms : Option Nat := none
  error : Option String := none
deriving Repr

/-- Embeds `metadata.update(llm_metadata)`: the `_choose_move_llm` dict always
carries all five keys, so all five fields are overwritten. -/
def MoveMetadata.updateLlm (md : MoveMetadata) (l : LlmMetadata) : MoveMetadata :=
  { md with
    prompt := l.prompt, response := l.response, reasoning := l.reasoning,
    response_time_ms := l.response_time_ms, error := l.error }

/-- Environment of one `choose_move` call: the outcome of `agent.invoke`
(the response string and measured latency in ms, or the message of a
raised exception) and the index drawn by `random.choice`. -/
structure Oracle where
  outcome : Except String (String × Nat)
  k : Nat

/-- Embeds `random.choice` given the drawn index: an element of any non-empty
list. -/
def randomChoice (k : Nat) (l : List α) : Option α := l[k % l.length]?

/-- Embeds `str(move)` for the f-string in the invalid-move error message:
Python tuple repr or `None`. -/
def pyStrOptMove : Option Move → String
  | some m => "(" ++ toString m.1 ++ ", " ++ toString m.2 ++ ")"
  | none => "None"

/-- Embeds `Player._choose_move_llm` (lines 129–182): builds the prompt, runs the
external call, parses the response, and validates the move against the
available list.  Any exception raised inside the `try` block (from the
call itself or escaping `_parse_llm_response`) lands in the blanket
`except`, recording its message. -/
def Player.choose_move_llm (p : Player) (available_moves : List Move)
    (board_state : Grid) (orc : Oracle) : Option Move × LlmMetadata :=
  let user_prompt := get_move_prompt board_state p.symbol available_moves
  let md : LlmMetadata := { prompt := some user_prompt }
  match orc.outcome with
  | Except.error e => (none, { md with error := some e })
  | Except.ok (resp, t) =>
    let md := { md with response_time_ms := some t, response := some resp }
    match parse_llm_response resp with
    | Except.error m => (none, { md with error := some m })
    | Except.ok (mv, reasoning) =>
      let md := { md with reasoning := reasoning }
      if mv.isSome ∧ (mv.getD (0, 0)) ∈ available_moves then (mv, md)
      else
        (none, { md with
          error := some ("Invalid move " ++ pyStrOptMove mv ++ " not in available moves") })

/-- Embeds `Player.choose_move` (lines 78–127).  Returns the chosen move, the
metadata (`none` models the bare `{}` returned for an empty move list) and
the updated player (its recorded history and `last_*` fields). -/
def Player.choose_move (p : Player) (available_moves : List Move)
    (board_state : Option Grid) (orc : Oracle) :
    Option Move × Option MoveMetadata × Player :=
  if available_moves = [] then (none, none, p)
  else
    let md0 : MoveMetadata := { player_type := if p.use_llm then "llm" else "random" }
    let chosen :=
      if p.use_llm ∧ p.hasAgent ∧ board_state.isSome then
        let llm := p.choose_move_llm available_moves (board_state.getD emptyGrid) orc
        let md1 := md0.updateLlm llm.2
        if llm.1.isNone ∨ ¬ (llm.1.getD (0, 0)) ∈ available_moves then
          (randomChoice orc.k available_moves,
           { md1 with error := some "LLM move invalid, used random fallback" })
        else (llm.1, md1)
      else (randomChoice orc.k available_moves, md0)
    (chosen.1, some chosen.2,
     { p with move_history := p.move_history ++ [chosen.1],
              last_prompt := chosen.2.prompt, last_response := chosen.2.response,
              last_reasoning := chosen.2.reasoning,
              last_response_time := chosen.2.response_time_ms })

/-! ## `Game` (game.py) -/

/-- Which side the `current_player` reference points at.  The code
compares `current_player == player_x`, which for these objects is Python
identity; the marker models that identity (the degenerate case of passing
one and the same `Player` object for both sides is not modelled). -/
inductive Turn where
  | px
  | po
deriving Repr, DecidableEq

/-- One move-history entry: the dict appended at line 135 of `game.py`. -/
structure HistEntry where
  player : String
  row : Option Int
  col : Option Int
  reasoning : Option Json
deriving Repr

/-- The arguments of one `logger.log_move` call (the timestamp is wall
clock and not modelled; CSV serialisation is outside the core). -/
structure MoveEvent where
  game_id : String
  move_number : Nat
  player : String
  player_type : String
  board_state : Grid
  available_moves : List Move
  prompt_sent : Option String
  llm_response : Option String
  llm_reasoning : Option Json
  chosen_move : Option (Option Int × Option Int)
  move_valid : Bool
  error_message : Option String
  response_time_ms : Option Nat
deriving Repr

/-- The arguments of one `logger.log_game` call (timestamp and duration
are wall clock and not modelled). -/
structure GameEvent where
  game_id : String
  player_x_type : String
  player_x_model : Option String
  player_o_type : String
  player_o_model : Option String
  total_moves : Nat
  winner : Option String
  is_draw : Bool
  final_board_state : Grid
deriving Repr

/-- The `Game` state.  `start_time` is wall clock and not modelled; the
logger is modelled by the two event lists. -/
structure Game where
  game_id : String
  board : Grid
  player_x : Player
  player_o : Player
  current : Turn
  winner : Option String
  is_draw : Bool
  game_over : Bool
  move_history : List HistEntry
  enable_logging : Bool
  move_log : List MoveEvent
  game_log : List GameEvent
deriving Repr

/-- Embeds `Game.__init__` with explicit id and players (the generated `uuid` and
defaulted players are inputs here). -/
def mkGame (game_id : String) (player_x player_o : Player)
    (enable_logging : Bool) : Game where
  game_id := game_id
  board := emptyGrid
  player_x := player_x
  player_o := player_o
  current := Turn.px
  winner := none
  is_draw := false
  game_over := false
  move_history := []
  enable_logging := enable_logging
  move_log := []
  game_log := []

/-- The object referenced by `self.current_player`. -/
def Game.currentPlayer (g : Game) : Player :=
  match g.current with
  | Turn.px => g.player_x
  | Turn.po => g.player_o

/-- Store back the current player object after `choose_move` mutated it. -/
def Game.setCurrentPlayer (g : Game) (p : Player) : Game :=
  match g.current with
  | Turn.px => { g with player_x := p }
  | Turn.po => { g with player_o := p }

/-- Embeds `Game.switch_player`. -/
def Game.switch_player (g : Game) : Game :=
  { g with
    current := match g.current with | Turn.px => Turn.po | Turn.po => Turn.px }

/-- The record handed to `logger.log_game` by `_log_game_summary`. -/
def mkGameEvent (g : Game) : GameEvent where
  game_id := g.game_id
  player_x_type := g.player_x.get_player_type
  player_x_model := g.player_x.get_model_name
  player_o_type := g.player_o.get_player_type
  player_o_model := g.player_o.get_model_name
  total_moves := g.move_history.length
  winner := g.winner
  is_draw := g.is_draw
  final_board_state := g.board

/-- Embeds `Game._log_game_summary`: appends a completion record when logging is
enabled (`self.logger` exists exactly when `enable_logging` was set). -/
def Game.log_game_summary (g : Game) : Game :=
  if g.enable_logging then { g with game_log := g.game_log ++ [mkGameEvent g] }
  else g

/-- The record handed to `logger.log_move` (lines 107–122); `g` is the
state after the placement attempt, before the history append. -/
def mkMoveEvent (g : Game) (available_moves : List Move)
    (md : Option MoveMetadata) (row1 col1 : Option Int)
    (move_valid : Bool) : MoveEvent where
  game_id := g.game_id
  move_number := g.move_history.length + 1
  player := g.currentPlayer.symbol
  player_type := (md.map fun m => m.player_type).getD "random"
  board_state := g.board
  available_moves := available_moves
  prompt_sent := md.bind fun m => m.prompt
  llm_response := md.bind fun m => m.response
  llm_reasoning := md.bind fun m => m.reasoning
  chosen_move := if row1.isSome then some (row1, col1) else none
  move_valid := move_valid
  error_message := md.bind fun m => m.error
  response_time_ms := md.bind fun m => m.response_time_ms

/-- The result dict of `Game.make_move`.  Keys present only on some paths
are wrapped in an outer `Option` (`none` = key absent); the `metadata`
value is itself optional because the local `move_metadata` starts as the
empty dict (`none`). -/
structure MoveResult where
  success : Bool
  message : String
  board : Grid
  game_over : Bool
  winner : Option (Option String) := none
  is_draw : Option Bool := none
  current_player : Option String := none
  move : Option (Option Int × Option Int × String) := none
  metadata : Option (Option MoveMetadata) := none
deriving Repr

/-- Python truthiness of the `winner` variable (`if winner:`): a non-empty
string. -/
def pyTruthy : Option String → Bool
  | some s => !(s = "")
  | none => false

/-- Embeds `str(x)` for an optional int, as interpolated into f-strings. -/
def pyStrOptInt : Option Int → String
  | some n => toString n
  | none => "None"

/-- Embeds `self.board.make_move(row, col, ...)` as called from `Game.make_move`.
With either coordinate still `None`, Python would raise `TypeError` at the
`row < 0` comparison; that situation is unreachable (the chooser supplies
a move whenever the move list is non-empty) and modelled as an invalid
move. -/
def makeMoveOpt (b : Grid) (row col : Option Int) (symbol : String) : Bool × Grid :=
  match row, col with
  | some r, some c => Board.make_move b r c symbol
  | _, _ => (false, b)

/-- Lines 103–196 of `Game.make_move`: the placement attempt, logging,
history append, terminal checks and turn switch, once the move variables
`row1`/`col1` and the chooser metadata are settled. -/
def Game.attempt_phase (g : Game) (available_moves : List Move)
    (row1 col1 : Option Int) (md : Option MoveMetadata) : MoveResult × Game :=
  let attempt := makeMoveOpt g.board row1 col1 g.currentPlayer.symbol
  let move_valid := attempt.1
  let g2 := { g with board := attempt.2 }
  let g3 :=
    if g2.enable_logging then
      { g2 with
        move_log := g2.move_log
          ++ [mkMoveEvent g2 available_moves md row1 col1 move_valid] }
    else g2
  if move_valid = false then
    ({ success := false,
       message := "Invalid move at (" ++ pyStrOptInt row1 ++ ", "
         ++ pyStrOptInt col1 ++ ")",
       board := g3.board, game_over := false,
       current_player := some g3.currentPlayer.symbol,
       metadata := some md }, g3)
  else
    let entry : HistEntry :=
      { player := g3.currentPlayer.symbol, row := row1, col := col1,
        reasoning := md.bind fun m => m.reasoning }
    let g4 := { g3 with move_history := g3.move_history ++ [entry] }
    let winner1 := check_winner g4.board
    if pyTruthy winner1 then
      let g5 := Game.log_game_summary { g4 with winner := winner1, game_over := true }
      ({ success := true, message := g5.currentPlayer.name ++ " wins!",
         board := g5.board, game_over := true, winner := some winner1,
         is_draw := some false,
         move := some (row1, col1, g5.currentPlayer.symbol),
         metadata := some md }, g5)
    else if is_board_full g4.board then
      let g5 := Game.log_game_summary { g4 with is_draw := true, game_over := true }
      ({ success := true, message := "It" ++ String.singleton (Char.ofNat 39)
           ++ "s a draw!",
         board := g5.board, game_over := true, winner := some none,
         is_draw := some true,
         move := some (row1, col1, g5.currentPlayer.symbol),
         metadata := some md }, g5)
    else
      let g5 := g4.switch_player
      ({ success := true, message := "Move successful", board := g5.board,
         game_over := false, current_player := some g5.currentPlayer.symbol,
         move := some (row1, col1,
           if g5.current = Turn.po then g5.player_x.symbol
           else g5.player_o.symbol),
         metadata := some md }, g5)

/-- Embeds `Game.make_move` (lines 50–196).  `row0`/`col0` are the optional
explicit coordinates; `orc` feeds the chooser when it is consulted. -/
def Game.make_move (g : Game) (row0 col0 : Option Int) (orc : Oracle) :
    MoveResult × Game :=
  if g.game_over then
    ({ success := false, message := "Game is already over", board := g.board,
       game_over := true, winner := some g.winner, is_draw := some g.is_draw }, g)
  else
    let available_moves := get_available_moves g.board
    if available_moves = [] then
      let g1 := Game.log_game_summary { g with is_draw := true, game_over := true }
      ({ success := false, message := "No available moves", board := g.board,
         game_over := true, winner := some none, is_draw := some true }, g1)
    else
      let chosen : Option Int × Option Int × Option MoveMetadata × Game :=
        if row0.isNone || col0.isNone then
          let res := (g.currentPlayer).choose_move available_moves (some g.board) orc
          let gP := g.setCurrentPlayer res.2.2
          match res.1 with
          | some m => (some m.1, some m.2, res.2.1, gP)
          | none => (row0, col0, res.2.1, gP)
        else (row0, col0, none, g)
      Game.attempt_phase chosen.2.2.2 available_moves chosen.1 chosen.2.1 chosen.2.2.1

/-- The dict returned by `Game.get_state`. -/
structure GameState where
  board : Grid
  current_player : Option String
  winner : Option String
  is_draw : Bool
  game_over : Bool
  move_history : List HistEntry
  available_moves : List Move
deriving Repr

/-- Embeds `Game.get_state`. -/
def Game.get_state (g : Game) : GameState where
  board := g.board
  current_player := if g.game_over then none else some g.currentPlayer.symbol
  winner := g.winner
  is_draw := g.is_draw
  game_over := g.game_over
  move_history := g.move_history
  available_moves := if g.game_over then [] else get_available_moves g.board

/-- Embeds `Game.reset` (lines 239–247): fresh board, turn back to X, flags and
history cleared; id, players, logging configuration and the logger are
untouched (`start_time` is wall clock, not modelled). -/
def Game.reset (g : Game) : Game :=
  { g with
    board := emptyGrid, current := Turn.px, winner := none, is_draw := false,
    game_over := false, move_history := [] }

/-- An oracle for calls that never consult the chooser. -/
def unusedOracle : Oracle := { outcome := Except.error "unused", k := 0 }

/-- A fresh default game, as `Game("id")` constructs one. -/
def demoGame : Game :=
  mkGame "demo" (Player.mkDefault "X" "Player X") (Player.mkDefault "O" "Player O") true

/-- One explicit move of the end-to-end scenario. -/
def demoStep (g : Game) (r c : Int) : Game :=
  (g.make_move (some r) (some c) unusedOracle).2

/-- The state after X:(0,0), O:(1,1), X:(0,1), O:(2,2), X:(0,2). -/
def wonGame : Game :=
  demoStep (demoStep (demoStep (demoStep (demoStep demoGame 0 0) 1 1) 0 1) 2 2) 0 2

/-- An LLM-configured player (state as after `Player("X", use_llm=True)`
with a live agent). -/
def llmPlayerX : Player where
  symbol := "X"
  name := "X (gpt-4o-mini)"
  use_llm := true
  hasAgent := true
  provider := "openai"
  model := "gpt-4o-mini"
  move_history := []
  last_prompt := none
  last_response := none
  last_reasoning := none
  last_response_time := none

/-- An oracle whose external call raises. -/
def failOracle : Oracle := { outcome := Except.error "boom", k := 0 }

/-- Is a decoded JSON value accepted by Python `int()`? (Derived from the
`pyInt` model: ints, bools and int-literal strings.) -/
def intConvertible (j : Json) : Bool :=
  match pyInt j with
  | PyIntRes.ok _ => true
  | _ => false

/-- The inductive invariant of a game state: a 3×3 board, history length
plus empty-cell count equal to 9, and the terminal-flag discipline (a
non-terminal state has no winner, no draw flag, and a non-full board; a
terminal state is either won with no draw flag, or an unwon draw on a
full board). -/
def Inv (g : Game) : Prop :=
  Shaped g.board ∧
  g.move_history.length + countEmpty g.board = 9 ∧
  (g.game_over = false →
    g.winner = none ∧ g.is_draw = false ∧ is_board_full g.board = false) ∧
  (g.game_over = true →
    (g.winner ≠ none ∧ g.is_draw = false) ∨
    (g.winner = none ∧ g.is_draw = true ∧ is_board_full g.board = true))

/-- The game states reachable from construction by any sequence of
`make_move` (with any coordinates and chooser behaviour) and `reset`. -/
inductive Reachable : Game → Prop where
  | init (game_id : String) (px po : Player) (el : Bool) :
      Reachable (mkGame game_id px po el)
  | move {g : Game} (row0 col0 : Option Int) (orc : Oracle) :
      Reachable g → Reachable (g.make_move row0 col0 orc).2
  | reset {g : Game} : Reachable g → Reachable g.reset

/-! ## Evaluation checks -/

example : check_winner emptyGrid = none := by rfl
example : is_board_full emptyGrid = false := by rfl
example : get_available_moves emptyGrid =
    [(0, 0), (0, 1), (0, 2), (1, 0), (1, 1), (1, 2), (2, 0), (2, 1), (2, 2)] := by
  rfl
example : (Board.make_move emptyGrid 0 0 "X").1 = true := by rfl
example : countEmpty emptyGrid = 9 := by rfl
example : check_winner (Board.make_move emptyGrid 1 1 "X").2 = none := by rfl
example : json_loads "\x7b\"row\": 1, \"col\": 2\x7d" =
    some (Json.obj [("row", Json.num 1), ("col", Json.num 2)]) := by rfl
example : json_loads " [1, true, null] " =
    some (Json.arr [Json.num 1, Json.bool true, Json.null]) := by rfl
example : json_loads "\x7b\"a\": \"b\"\x7d" = some (Json.obj [("a", Json.str "b")]) := by rfl
example : json_loads "1.5" = none := by rfl
example : json_loads "nope" = none := by rfl
example : parse_llm_response "\x7b\"row\": 1, \"col\": 2\x7d" =
    Except.ok (some (1, 2), some (Json.str "No reasoning provided")) := by rfl
example : parse_llm_response "```json\n\x7b\"row\": 0, \"col\": 2, \"reasoning\": \"win\"\x7d\n```" =
    Except.ok (some (0, 2), some (Json.str "win")) := by rfl
example : parse_llm_response "\x7b\"row\": \"0\", \"col\": \"1\"\x7d" =
    Except.ok (some (0, 1), some (Json.str "No reasoning provided")) := by rfl
example : parse_llm_response "[0, 1]" = Except.error "list object has no attribute get" := by rfl
example : parse_llm_response "not json at all" = Except.ok (none, none) := by rfl
example : parse_llm_response "\x7b\"col\": 2\x7d" = Except.ok (none, none) := by rfl
example :
    (Player.choose_move (Player.mkDefault "X" "Player X") [(0, 0), (1, 1)] none
      { outcome := Except.error "no call", k := 3 }).1 = some (1, 1) := by rfl
example : (demoGame.make_move (some 0) (some 0) unusedOracle).1.success = true := by rfl
example : ((demoGame.make_move (some 0) (some 0) unusedOracle).2.make_move
    (some 0) (some 0) unusedOracle).1.success = false := by rfl
example : (demoGame.make_move (some 3) (some 0) unusedOracle).1.message
    = "Invalid move at (3, 0)" := by rfl

/-! ## Board lemmas -/

theorem shaped_emptyGrid : Shaped emptyGrid :=
  ⟨none, none, none, none, none, none, none, none, none, rfl⟩

theorem cellAt_setCell_self {b : Grid} (hb : Shaped b) {i j : Nat}
    (hi : i < 3) (hj : j < 3) (v : Cell) :
    cellAt (setCell b i j v) i j = v := by
  obtain ⟨a0, a1, a2, b0, b1, b2, c0, c1, c2, rfl⟩ := hb
  interval_cases i <;> interval_cases j <;> rfl

theorem cellAt_setCell_other {b : Grid} (hb : Shaped b) {i j : Nat}
    (hi : i < 3) (hj : j < 3) (v : Cell) (i' j' : Nat)
    (hne : ¬(i' = i ∧ j' = j)) :
    cellAt (setCell b i j v) i' j' = cellAt b i' j' := by
  obtain ⟨a0, a1, a2, b0, b1, b2, c0, c1, c2, rfl⟩ := hb
  interval_cases i <;> interval_cases j <;>
    rcases i' with _ | _ | _ | i' <;> rcases j' with _ | _ | _ | j' <;>
      first
        | rfl
        | exact absurd (by omega) hne

theorem shaped_setCell {b : Grid} (hb : Shaped b) {i j : Nat}
    (hi : i < 3) (hj : j < 3) (v : Cell) :
    Shaped (setCell b i j v) := by
  obtain ⟨a0, a1, a2, b0, b1, b2, c0, c1, c2, rfl⟩ := hb
  interval_cases i <;> interval_cases j <;>
    exact ⟨_, _, _, _, _, _, _, _, _, rfl⟩

theorem make_move_of_oob {b : Grid} {row col : Int} (s : String)
    (h : row < 0 ∨ row > 2 ∨ col < 0 ∨ col > 2) :
    Board.make_move b row col s = (false, b) := by
  unfold Board.make_move
  rw [if_pos h]

theorem make_move_of_occupied {b : Grid} {row col : Int} (s : String)
    (h1 : ¬(row < 0 ∨ row > 2 ∨ col < 0 ∨ col > 2))
    (h2 : cellAt b row.toNat col.toNat ≠ none) :
    Board.make_move b row col s = (false, b) := by
  unfold Board.make_move
  rw [if_neg h1, if_pos (by simpa [Option.isSome_iff_ne_none] using h2)]

theorem make_move_success {b : Grid} {row col : Int} (s : String)
    (h1 : ¬(row < 0 ∨ row > 2 ∨ col < 0 ∨ col > 2))
    (h2 : cellAt b row.toNat col.toNat = none) :
    Board.make_move b row col s = (true, setCell b row.toNat col.toNat (some s)) := by
  unfold Board.make_move
  rw [if_neg h1, if_neg (by simp [h2])]

/-- Exhaustive description of `Board.make_move`: it either rejects and
returns the board unchanged, or the coordinates are in range, the target
cell is empty, and it writes that cell. -/
theorem make_move_cases (b : Grid) (row col : Int) (s : String) :
    Board.make_move b row col s = (false, b) ∨
    (0 ≤ row ∧ row ≤ 2 ∧ 0 ≤ col ∧ col ≤ 2 ∧
      cellAt b row.toNat col.toNat = none ∧
      Board.make_move b row col s
        = (true, setCell b row.toNat col.toNat (some s))) := by
  by_cases h1 : row < 0 ∨ row > 2 ∨ col < 0 ∨ col > 2
  · exact Or.inl (make_move_of_oob s h1)
  · by_cases h2 : cellAt b row.toNat col.toNat = none
    · refine Or.inr ⟨by omega, by omega, by omega, by omega, h2, make_move_success s h1 h2⟩
    · exact Or.inl (make_move_of_occupied s h1 h2)

theorem make_move_false_eq {b : Grid} {row col : Int} {s : String}
    (h : (Board.make_move b row col s).1 = false) :
    (Board.make_move b row col s).2 = b := by
  rcases make_move_cases b row col s with h' | ⟨_, _, _, _, _, h'⟩
  · rw [h']
  · rw [h'] at h ⊢
    simp at h

/-- C4: `Board.make_move` returns `false` and leaves the grid unchanged on
out-of-range or occupied input, otherwise writes exactly the addressed
cell and returns `true`; a second call at the same coordinates always
returns `false` and leaves the board as it was after the first call.  (The
model is a total function: no input raises.) -/
theorem C4_place_contract (b : Grid) (row col : Int) (s s2 : String) (hb : Shaped b) :
    ((row < 0 ∨ row > 2 ∨ col < 0 ∨ col > 2) →
      Board.make_move b row col s = (false, b)) ∧
    (0 ≤ row → row ≤ 2 → 0 ≤ col → col ≤ 2 →
      (cellAt b row.toNat col.toNat ≠ none →
        Board.make_move b row col s = (false, b)) ∧
      (cellAt b row.toNat col.toNat = none →
        (Board.make_move b row col s).1 = true ∧
        cellAt (Board.make_move b row col s).2 row.toNat col.toNat = some s ∧
        ∀ i j : Nat, ¬(i = row.toNat ∧ j = col.toNat) →
          cellAt (Board.make_move b row col s).2 i j = cellAt b i j)) ∧
    Board.make_move (Board.make_move b row col s).2 row col s2
      = (false, (Board.make_move b row col s).2) := by
  refine ⟨fun h => make_move_of_oob s h, ?_, ?_⟩
  · intro hr0 hr2 hc0 hc2
    have h1 : ¬(row < 0 ∨ row > 2 ∨ col < 0 ∨ col > 2) := by omega
    refine ⟨fun h2 => make_move_of_occupied s h1 h2, fun h2 => ?_⟩
    have hs := make_move_success s h1 h2
    have hrow3 : row.toNat < 3 := by omega
    have hcol3 : col.toNat < 3 := by omega
    rw [hs]
    exact ⟨rfl, cellAt_setCell_self hb hrow3 hcol3 _,
      fun i j hne => cellAt_setCell_other hb hrow3 hcol3 _ i j hne⟩
  · by_cases h1 : row < 0 ∨ row > 2 ∨ col < 0 ∨ col > 2
    · rw [make_move_of_oob s h1]
      exact make_move_of_oob s2 h1
    · by_cases h2 : cellAt b row.toNat col.toNat = none
      · rw [make_move_success s h1 h2]
        refine make_move_of_occupied s2 h1 ?_
        rw [cellAt_setCell_self hb (by omega) (by omega)]
        simp
      · rw [make_move_of_occupied s h1 h2]
        exact make_move_of_occupied s2 h1 h2

/-- Witness for C4 at a concrete input. -/
theorem C4_place_contract_witness :
    (Board.make_move emptyGrid 1 1 "X").1 = true ∧
    Board.make_move (Board.make_move emptyGrid 1 1 "X").2 1 1 "O"
      = (false, (Board.make_move emptyGrid 1 1 "X").2) := by
  have h := C4_place_contract emptyGrid 1 1 "X" "O" shaped_emptyGrid
  refine ⟨((h.2.1 (by decide) (by decide) (by decide) (by decide)).2 (by rfl)).1, h.2.2⟩

/-! ## Chooser lemmas -/

theorem randomChoice_isSome {α : Type} (k : Nat) {l : List α} (h : l ≠ []) :
    (randomChoice k l).isSome = true := by
  have : k % l.length < l.length := Nat.mod_lt _ (List.length_pos.mpr h)
  simp [randomChoice, List.getElem?_eq_getElem this]

theorem randomChoice_mem {α : Type} {k : Nat} {l : List α} {x : α}
    (h : randomChoice k l = some x) : x ∈ l := by
  unfold randomChoice at h
  exact List.getElem?_mem h

theorem choose_move_fst_isSome (p : Player) (avail : List Move)
    (bs : Option Grid) (orc : Oracle) (h : avail ≠ []) :
    ((p.choose_move avail bs orc).1).isSome = true := by
  unfold Player.choose_move
  rw [if_neg h]
  by_cases hllm : p.use_llm = true ∧ p.hasAgent = true ∧ bs.isSome = true
  · simp only [hllm, and_self, if_true]
    by_cases hfall :
        (p.choose_move_llm avail (bs.getD emptyGrid) orc).1.isNone = true ∨
        ¬ (p.choose_move_llm avail (bs.getD emptyGrid) orc).1.getD (0, 0) ∈ avail
    · simp only [hfall, if_true]
      exact randomChoice_isSome orc.k h
    · simp only [hfall, if_false]
      push_neg at hfall
      simp only [Option.isSome_iff_ne_none]
      simpa [Option.isNone_iff_eq_none] using hfall.1
  · simp only [hllm, if_false]
    exact randomChoice_isSome orc.k h

/-- C1: whenever `choose_move` is called with a non-empty list of
available moves, any move it returns is an element of that list — on the
random path, on the successful LLM path (which validates membership) and
on every LLM failure path (which falls back to a random selection from
the same list). -/
theorem C1_choose_move_in_available (p : Player) (avail : List Move)
    (bs : Option Grid) (orc : Oracle) (h : avail ≠ []) :
    ∀ mv : Move, (p.choose_move avail bs orc).1 = some mv → mv ∈ avail := by
  intro mv hmv
  unfold Player.choose_move at hmv
  rw [if_neg h] at hmv
  by_cases hllm : p.use_llm = true ∧ p.hasAgent = true ∧ bs.isSome = true
  · simp only [hllm, and_self, if_true] at hmv
    by_cases hfall :
        (p.choose_move_llm avail (bs.getD emptyGrid) orc).1.isNone = true ∨
        ¬ (p.choose_move_llm avail (bs.getD emptyGrid) orc).1.getD (0, 0) ∈ avail
    · simp only [hfall, if_true] at hmv
      exact randomChoice_mem hmv
    · simp only [hfall, if_false] at hmv
      push_neg at hfall
      have := hfall.2
      rwa [hmv] at this
  · simp only [hllm, if_false] at hmv
    exact randomChoice_mem hmv

/-- Witness for C1: a concrete random choice lands in the list. -/
theorem C1_choose_move_in_available_witness : (1, 1) ∈ ([(0, 0), (1, 1)] : List Move) :=
  C1_choose_move_in_available (Player.mkDefault "X" "Player X") [(0, 0), (1, 1)] none
    { outcome := Except.error "no call", k := 3 } (by decide) (1, 1) rfl

/-! ## Terminal-game frame (C6) -/

/-- C6: once `game_over` is set, `make_move` (with or without explicit
coordinates) returns `success=false` carrying the current board, winner
and draw flag, and the state — board, winner, draw flag, history, current
player, and both logs — is returned unchanged (the early return precedes
the logging call). -/
theorem C6_terminal_is_noop (g : Game) (row0 col0 : Option Int) (orc : Oracle)
    (h : g.game_over = true) :
    g.make_move row0 col0 orc
      = ({ success := false, message := "Game is already over", board := g.board,
           game_over := true, winner := some g.winner, is_draw := some g.is_draw },
         g) := by
  unfold Game.make_move
  rw [if_pos h]

/-- Witness for C6 at a concretely finished game. -/
theorem C6_terminal_is_noop_witness :
    wonGame.make_move none none unusedOracle
      = ({ success := false, message := "Game is already over", board := wonGame.board,
           game_over := true, winner := some wonGame.winner,
           is_draw := some wonGame.is_draw }, wonGame) :=
  C6_terminal_is_noop wonGame none none unusedOracle rfl

/-! ## Reset round trip (C9) -/

/-- C9: after any sequence of operations, `reset()` followed by
`get_state()` gives exactly the post-construction state — empty board,
turn back to the X side, no winner, no draw, game not over, empty history,
all nine cells available — while the game id, the players (hence each
side's chooser configuration) and the logging flag are untouched. -/
theorem C9_reset_round_trip (g : Game) :
    (g.reset).get_state
      = (mkGame g.game_id g.player_x g.player_o g.enable_logging).get_state ∧
    (g.reset).get_state.board = emptyGrid ∧
    (g.reset).get_state.current_player = some g.player_x.symbol ∧
    (g.reset).get_state.winner = none ∧
    (g.reset).get_state.is_draw = false ∧
    (g.reset).get_state.game_over = false ∧
    (g.reset).get_state.move_history = [] ∧
    (g.reset).get_state.available_moves
      = [(0, 0), (0, 1), (0, 2), (1, 0), (1, 1), (1, 2), (2, 0), (2, 1), (2, 2)] ∧
    (g.reset).game_id = g.game_id ∧
    (g.reset).player_x = g.player_x ∧
    (g.reset).player_o = g.player_o ∧
    (g.reset).enable_logging = g.enable_logging :=
  ⟨rfl, rfl, rfl, rfl, rfl, rfl, rfl, rfl, rfl, rfl, rfl, rfl⟩

/-! ## End-to-end winning scenario (C8) -/

/-- C8: from a fresh game, the explicit sequence X:(0,0), O:(1,1),
X:(0,1), O:(2,2), X:(0,2) succeeds at every step, and after the fifth move
the winner is `"X"`, the game is over, and exactly 5 moves are recorded. -/
theorem C8_top_row_win :
    (demoGame.make_move (some 0) (some 0) unusedOracle).1.success = true ∧
    ((demoStep demoGame 0 0).make_move (some 1) (some 1) unusedOracle).1.success = true ∧
    ((demoStep (demoStep demoGame 0 0) 1 1).make_move (some 0) (some 1)
      unusedOracle).1.success = true ∧
    ((demoStep (demoStep (demoStep demoGame 0 0) 1 1) 0 1).make_move (some 2) (some 2)
      unusedOracle).1.success = true ∧
    ((demoStep (demoStep (demoStep (demoStep demoGame 0 0) 1 1) 0 1) 2 2).make_move
      (some 0) (some 2) unusedOracle).1.success = true ∧
    wonGame.winner = some "X" ∧
    wonGame.game_over = true ∧
    wonGame.move_history.length = 5 :=
  ⟨rfl, rfl, rfl, rfl, rfl, rfl, rfl, rfl⟩

/-! ## Partially explicit coordinates (C10) -/

theorem make_move_chooser_path (g : Game) (row0 col0 : Option Int) (orc : Oracle)
    (h : g.game_over = false) (hpart : row0.isNone || col0.isNone) :
    g.make_move row0 col0 orc = g.make_move none none orc := by
  unfold Game.make_move
  simp only [h]
  by_cases hav : get_available_moves g.board = []
  · simp [hav]
  · have hsome := choose_move_fst_isSome (g.currentPlayer)
      (get_available_moves g.board) (some g.board) orc hav
    obtain ⟨m, hm⟩ := Option.isSome_iff_exists.mp hsome
    simp [hav, hpart, hm]

/-- C10: on a non-terminal game, giving only one of the two coordinates
(row without col, or col without row) behaves exactly like giving none:
the provided coordinate is discarded and the current player's chooser
selects from the available moves. -/
theorem C10_single_coordinate_ignored (g : Game) (r c : Int) (orc : Oracle)
    (h : g.game_over = false) :
    g.make_move (some r) none orc = g.make_move none none orc ∧
    g.make_move none (some c) orc = g.make_move none none orc :=
  ⟨make_move_chooser_path g (some r) none orc h (by simp),
   make_move_chooser_path g none (some c) orc h (by simp)⟩

/-- Witness for C10 on a fresh game with an (out-of-range) partial row. -/
theorem C10_single_coordinate_ignored_witness :
    demoGame.make_move (some 5) none unusedOracle
      = demoGame.make_move none none unusedOracle :=
  (C10_single_coordinate_ignored demoGame 5 0 unusedOracle rfl).1

/-! ## Invalid placement frame (C5) -/

/-- C5: on a non-terminal game with moves still available, a `make_move`
call with explicit out-of-range or occupied coordinates returns
`success=false` and leaves the board, the current-turn marker, both player
objects, and the move history exactly as they were. -/
theorem C5_invalid_placement_frame (g : Game) (r c : Int) (orc : Oracle)
    (h0 : g.game_over = false)
    (h1 : get_available_moves g.board ≠ [])
    (h2 : (r < 0 ∨ r > 2 ∨ c < 0 ∨ c > 2) ∨ cellAt g.board r.toNat c.toNat ≠ none) :
    (g.make_move (some r) (some c) orc).1.success = false ∧
    (g.make_move (some r) (some c) orc).2.board = g.board ∧
    (g.make_move (some r) (some c) orc).2.current = g.current ∧
    (g.make_move (some r) (some c) orc).2.player_x = g.player_x ∧
    (g.make_move (some r) (some c) orc).2.player_o = g.player_o ∧
    (g.make_move (some r) (some c) orc).2.move_history = g.move_history := by
  have hmm : Board.make_move g.board r c (g.currentPlayer.symbol) = (false, g.board) := by
    by_cases hoob : r < 0 ∨ r > 2 ∨ c < 0 ∨ c > 2
    · exact make_move_of_oob _ hoob
    · rcases h2 with h2 | h2
      · exact absurd h2 hoob
      · exact make_move_of_occupied _ hoob h2
  unfold Game.make_move Game.attempt_phase
  by_cases hel : g.enable_logging = true <;>
    simp [h0, h1, makeMoveOpt, hmm, hel]

/-- Witness for C5: an occupied-cell request on a mid-game state. -/
theorem C5_invalid_placement_frame_witness :
    ((demoStep demoGame 0 0).make_move (some 0) (some 0) unusedOracle).1.success = false ∧
    ((demoStep demoGame 0 0).make_move (some 0) (some 0) unusedOracle).2.board
      = (demoStep demoGame 0 0).board :=
  have h := C5_invalid_placement_frame (demoStep demoGame 0 0) 0 0 unusedOracle
    rfl (by decide) (Or.inr (by decide))
  ⟨h.1, h.2.1⟩

/-! ## External-chooser failure metadata (C2) -/

/-- C2 (counterexample): when the external call raises (message `"boom"`),
`_choose_move_llm` records the underlying description, but `choose_move`
then overwrites the `error` field with the generic fallback indicator, so
the returned metadata does not contain the underlying failure
description. -/
theorem C2_underlying_error_lost_cex :
    (llmPlayerX.choose_move_llm [(0, 0)] emptyGrid failOracle).2.error = some "boom" ∧
    ((llmPlayerX.choose_move [(0, 0)] (some emptyGrid) failOracle).2.1.map
        fun m => m.error)
      = some (some "LLM move invalid, used random fallback") ∧
    ("LLM move invalid, used random fallback" : String) ≠ "boom" :=
  ⟨rfl, rfl, by decide⟩

/-- C2 (amended): on every external-chooser failure — raised call, raised
or failed parse, or a parsed move outside the available list — the
returned move is the random fallback and the returned metadata keeps the
prompt, raw response and extracted reasoning of the attempt, but its
`error` field is the generic indicator `"LLM move invalid, used random
fallback"`, which replaces the underlying failure description recorded by
the LLM step.  The prompt is always recorded. -/
theorem C2_fallback_uses_random_and_keeps_observability (p : Player)
    (avail : List Move) (bs : Grid) (orc : Oracle)
    (hllm : p.use_llm = true) (hag : p.hasAgent = true) (h : avail ≠ [])
    (hfail : (p.choose_move_llm avail bs orc).1 = none) :
    (p.choose_move avail (some bs) orc).1 = randomChoice orc.k avail ∧
    (p.choose_move avail (some bs) orc).2.1 = some
      { player_type := "llm",
        prompt := (p.choose_move_llm avail bs orc).2.prompt,
        response := (p.choose_move_llm avail bs orc).2.response,
        reasoning := (p.choose_move_llm avail bs orc).2.reasoning,
        response_time_ms := (p.choose_move_llm avail bs orc).2.response_time_ms,
        error := some "LLM move invalid, used random fallback" } ∧
    (p.choose_move_llm avail bs orc).2.prompt
      = some (get_move_prompt bs p.symbol avail) := by
  refine ⟨?_, ?_, ?_⟩
  · unfold Player.choose_move
    rw [if_neg h]
    simp [hllm, hag, hfail]
  · unfold Player.choose_move
    rw [if_neg h]
    simp [hllm, hag, hfail, MoveMetadata.updateLlm]
  · unfold Player.choose_move_llm
    rcases horc : orc.outcome with e | pr
    · simp [horc]
    · obtain ⟨resp, t⟩ := pr
      rcases hp : parse_llm_response resp with e | pr2
      · simp [horc, hp]
      · obtain ⟨mv, rs⟩ := pr2
        simp only [horc, hp]
        split <;> rfl

/-- Witness for C2 (amended) at the raising oracle. -/
theorem C2_fallback_uses_random_and_keeps_observability_witness :
    (llmPlayerX.choose_move [(0, 0)] (some emptyGrid) failOracle).1
      = randomChoice failOracle.k [(0, 0)] :=
  (C2_fallback_uses_random_and_keeps_observability llmPlayerX [(0, 0)] emptyGrid
    failOracle rfl rfl (by decide) rfl).1

/-! ## Response parsing (C7) -/

/-- C7 (counterexample): on a payload whose `row`/`col` fields are JSON
*strings*, not numbers, the parser still returns the move `(0, 1)`
(Python `int()` converts integer-literal strings), contradicting "returns
a move exactly when the payload has numeric row and col fields". -/
theorem C7_string_fields_accepted_cex :
    parse_llm_response "\x7b\"row\": \"0\", \"col\": \"1\"\x7d"
      = Except.ok (some (0, 1), some (Json.str "No reasoning provided")) ∧
    json_loads (extractPayload "\x7b\"row\": \"0\", \"col\": \"1\"\x7d")
      = some (Json.obj [("row", Json.str "0"), ("col", Json.str "1")]) :=
  ⟨rfl, rfl⟩

/-- C7 (amended): after fence extraction (which prefers the first
three-backtick-`json` block over the first plain fenced block), the parser
returns a move exactly when the payload decodes to an object whose
non-null `row` and `col` values are `int()`-convertible (numbers, bools,
or integer-literal strings); the move is their `int()` conversion; the
reasoning defaults to the fixed placeholder when the key is absent; a
decode failure returns no move; and a non-object payload raises an
exception that escapes the parser (absorbed by the chooser). -/
theorem C7_parse_move_characterisation (response : String) :
    ((∃ mv rs, parse_llm_response response = Except.ok (some mv, rs)) ↔
      (∃ kvs rv cv, json_loads (extractPayload response) = some (Json.obj kvs) ∧
        pyGet kvs "row" = some rv ∧ pyGet kvs "col" = some cv ∧
        intConvertible rv = true ∧ intConvertible cv = true)) ∧
    (json_loads (extractPayload response) = none →
      parse_llm_response response = Except.ok (none, none)) ∧
    (∀ kvs mv rs, json_loads (extractPayload response) = some (Json.obj kvs) →
      parse_llm_response response = Except.ok (some mv, rs) →
      (dictGet kvs "reasoning" = none → rs = some (Json.str "No reasoning provided")) ∧
      pyInt ((pyGet kvs "row").getD Json.null) = PyIntRes.ok mv.1 ∧
      pyInt ((pyGet kvs "col").getD Json.null) = PyIntRes.ok mv.2) ∧
    (∀ j, json_loads (extractPayload response) = some j →
      (∀ kvs, j ≠ Json.obj kvs) →
      ∃ e, parse_llm_response response = Except.error e) := by
  have hps : parse_llm_response response =
      match json_loads (extractPayload response) with
      | none => Except.ok (none, none)
      | some (Json.obj kvs) =>
        if (pyGet kvs "row").isSome ∧ (pyGet kvs "col").isSome then
          match pyInt ((pyGet kvs "row").getD Json.null) with
          | PyIntRes.typeError m => Except.error m
          | PyIntRes.valueError _ => Except.ok (none, none)
          | PyIntRes.ok ri =>
            match pyInt ((pyGet kvs "col").getD Json.null) with
            | PyIntRes.typeError m => Except.error m
            | PyIntRes.valueError _ => Except.ok (none, none)
            | PyIntRes.ok ci => Except.ok (some (ri, ci),
                match dictGet kvs "reasoning" with
                | none => some (Json.str "No reasoning provided")
                | some v => pyVal v)
        else Except.ok (none, none)
      | some data => Except.error (attrErrMsg data) := rfl
  rcases hj : json_loads (extractPayload response) with _ | j
  · rw [hj] at hps
    have hp : parse_llm_response response = Except.ok (none, none) := hps
    refine ⟨⟨?_, ?_⟩, fun _ => hp, ?_, ?_⟩
    · rintro ⟨mv, rs, hmv⟩
      rw [hp] at hmv
      simp at hmv
    · rintro ⟨kvs, rv, cv, hkvs, _⟩
      cases hkvs
    · intro kvs mv rs hkvs
      cases hkvs
    · intro j hjj
      cases hjj
  · rw [hj] at hps
    by_cases hobj : ∃ kvs, j = Json.obj kvs
    · obtain ⟨kvs, rfl⟩ := hobj
      have hp1 : parse_llm_response response =
          (if (pyGet kvs "row").isSome ∧ (pyGet kvs "col").isSome then
            match pyInt ((pyGet kvs "row").getD Json.null) with
            | PyIntRes.typeError m => Except.error m
            | PyIntRes.valueError _ => Except.ok (none, none)
            | PyIntRes.ok ri =>
              match pyInt ((pyGet kvs "col").getD Json.null) with
              | PyIntRes.typeError m => Except.error m
              | PyIntRes.valueError _ => Except.ok (none, none)
              | PyIntRes.ok ci => Except.ok (some (ri, ci),
                  match dictGet kvs "reasoning" with
                  | none => some (Json.str "No reasoning provided")
                  | some v => pyVal v)
          else Except.ok (none, none)) := hps
      by_cases hrc : (pyGet kvs "row").isSome = true ∧ (pyGet kvs "col").isSome = true
      · obtain ⟨hr, hc⟩ := hrc
        obtain ⟨rv, hrv⟩ := Option.isSome_iff_exists.mp hr
        obtain ⟨cv, hcv⟩ := Option.isSome_iff_exists.mp hc
        rw [hrv, hcv] at hp1
        simp only [Option.isSome_some, and_self, if_true, Option.getD_some] at hp1
        rcases hri : pyInt rv with ri | m | m
        · rw [hri] at hp1
          rcases hci : pyInt cv with ci | m | m
          · rw [hci] at hp1
            refine ⟨⟨fun _ => ⟨kvs, rv, cv, rfl, hrv, hcv, ?_, ?_⟩, fun _ => ?_⟩,
              ?_, ?_, ?_⟩
            · simp [intConvertible, hri]
            · simp [intConvertible, hci]
            · exact ⟨(ri, ci), _, hp1⟩
            · intro hnone
              cases hnone
            · intro kvs2 mv rs hkvs2 hq
              injection hkvs2 with hkvs2
              injection hkvs2 with hkvs2
              subst hkvs2
              rw [hp1] at hq
              injection hq with hq
              have h1 : some (ri, ci) = some mv := congrArg Prod.fst hq
              have h2 := congrArg Prod.snd hq
              injection h1 with h1
              subst h1
              refine ⟨fun hd => ?_, by simp [hrv, hri], by simp [hcv, hci]⟩
              rw [hd] at h2
              exact h2.symm
            · intro j2 hj2 hne
              injection hj2 with hj2
              subst hj2
              exact absurd rfl (hne kvs)
          · rw [hci] at hp1
            refine ⟨⟨?_, ?_⟩, ?_, ?_, ?_⟩
            · rintro ⟨mv, rs, hmv⟩
              rw [hp1] at hmv
              simp at hmv
            · rintro ⟨kvs2, rv2, cv2, hkvs2, hrv2, hcv2, hconv2, hconv3⟩
              injection hkvs2 with hkvs2
              injection hkvs2 with hkvs2
              subst hkvs2
              rw [hcv] at hcv2
              injection hcv2 with hcv2
              subst hcv2
              simp [intConvertible, hci] at hconv3
            · intro hnone
              cases hnone
            · intro kvs2 mv rs hkvs2 hq
              rw [hp1] at hq
              simp at hq
            · intro j2 hj2 hne
              injection hj2 with hj2
              subst hj2
              exact absurd rfl (hne kvs)
          · rw [hci] at hp1
            refine ⟨⟨?_, ?_⟩, ?_, ?_, ?_⟩
            · rintro ⟨mv, rs, hmv⟩
              rw [hp1] at hmv
              cases hmv
            · rintro ⟨kvs2, rv2, cv2, hkvs2, hrv2, hcv2, hconv2, hconv3⟩
              injection hkvs2 with hkvs2
              injection hkvs2 with hkvs2
              subst hkvs2
              rw [hcv] at hcv2
              injection hcv2 with hcv2
              subst hcv2
              simp [intConvertible, hci] at hconv3
            · intro hnone
              cases hnone
            · intro kvs2 mv rs hkvs2 hq
              rw [hp1] at hq
              cases hq
            · intro j2 hj2 hne
              injection hj2 with hj2
              subst hj2
              exact absurd rfl (hne kvs)
        · rw [hri] at hp1
          refine ⟨⟨?_, ?_⟩, ?_, ?_, ?_⟩
          · rintro ⟨mv, rs, hmv⟩
            rw [hp1] at hmv
            simp at hmv
          · rintro ⟨kvs2, rv2, cv2, hkvs2, hrv2, hcv2, hconv2, hconv3⟩
            injection hkvs2 with hkvs2
            injection hkvs2 with hkvs2
            subst hkvs2
            rw [hrv] at hrv2
            injection hrv2 with hrv2
            subst hrv2
            simp [intConvertible, hri] at hconv2
          · intro hnone
            cases hnone
          · intro kvs2 mv rs hkvs2 hq
            rw [hp1] at hq
            simp at hq
          · intro j2 hj2 hne
            injection hj2 with hj2
            subst hj2
            exact absurd rfl (hne kvs)
        · rw [hri] at hp1
          refine ⟨⟨?_, ?_⟩, ?_, ?_, ?_⟩
          · rintro ⟨mv, rs, hmv⟩
            rw [hp1] at hmv
            cases hmv
          · rintro ⟨kvs2, rv2, cv2, hkvs2, hrv2, hcv2, hconv2, hconv3⟩
            injection hkvs2 with hkvs2
            injection hkvs2 with hkvs2
            subst hkvs2
            rw [hrv] at hrv2
            injection hrv2 with hrv2
            subst hrv2
            simp [intConvertible, hri] at hconv2
          · intro hnone
            cases hnone
          · intro kvs2 mv rs hkvs2 hq
            rw [hp1] at hq
            cases hq
          · intro j2 hj2 hne
            injection hj2 with hj2
            subst hj2
            exact absurd rfl (hne kvs)
      · rw [if_neg (by exact_mod_cast hrc)] at hp1
        refine ⟨⟨?_, ?_⟩, fun _ => hp1, ?_, ?_⟩
        · rintro ⟨mv, rs, hmv⟩
          rw [hp1] at hmv
          simp at hmv
        · rintro ⟨kvs2, rv2, cv2, hkvs2, hrv2, hcv2, _⟩
          injection hkvs2 with hkvs2
          injection hkvs2 with hkvs2
          subst hkvs2
          exact absurd ⟨by simp [hrv2], by simp [hcv2]⟩ hrc
        · intro kvs2 mv rs hkvs2 hq
          rw [hp1] at hq
          simp at hq
        · intro j2 hj2 hne
          injection hj2 with hj2
          subst hj2
          exact absurd rfl (hne kvs)
    · have hpe : parse_llm_response response = Except.error (attrErrMsg j) := by
        cases j <;> first | exact hps | exact absurd ⟨_, rfl⟩ hobj
      refine ⟨⟨?_, ?_⟩, ?_, ?_, ?_⟩
      · rintro ⟨mv, rs, hmv⟩
        rw [hpe] at hmv
        cases hmv
      · rintro ⟨kvs2, rv2, cv2, hkvs2, _⟩
        injection hkvs2 with hkvs2
        exact absurd ⟨kvs2, hkvs2⟩ hobj
      · intro hnone
        cases hnone
      · intro kvs2 mv rs hkvs2 hq
        injection hkvs2 with hkvs2
        exact absurd ⟨kvs2, hkvs2⟩ hobj
      · intro j2 hj2 hne
        injection hj2 with hj2
        subst hj2
        exact ⟨_, hpe⟩

/-- Witness for C7 (amended): a non-JSON response yields no move. -/
theorem C7_parse_move_characterisation_witness :
    parse_llm_response "totally not json" = Except.ok (none, none) :=
  (C7_parse_move_characterisation "totally not json").2.1 rfl

/-! ## Counting lemmas for the C3 invariant -/

theorem countP_set_of_get {α : Type} (p : α → Bool) (l : List α) (n : Nat)
    (a b' : α) (hl : l[n]? = some a) (hpa : p a = true) (hpb : p b' = false) :
    (l.set n b').countP p + 1 = l.countP p := by
  induction l generalizing n with
  | nil => cases hl
  | cons x xs ih =>
    cases n with
    | zero =>
      rw [List.getElem?_cons_zero] at hl
      injection hl with hl
      subst hl
      simp [List.countP_cons, hpa, hpb]
    | succ n =>
      rw [List.getElem?_cons_succ] at hl
      have := ih n hl
      cases hx : p x <;> simp [List.countP_cons, hx] <;> omega

theorem flatten_setCell {b : Grid} (hb : Shaped b) {i j : Nat}
    (hi : i < 3) (hj : j < 3) (v : Cell) :
    (setCell b i j v).flatten = b.flatten.set (3 * i + j) v := by
  obtain ⟨a0, a1, a2, b0, b1, b2, c0, c1, c2, rfl⟩ := hb
  interval_cases i <;> interval_cases j <;> rfl

theorem flatten_cellAt {b : Grid} (hb : Shaped b) {i j : Nat}
    (hi : i < 3) (hj : j < 3) :
    b.flatten[3 * i + j]? = some (cellAt b i j) := by
  obtain ⟨a0, a1, a2, b0, b1, b2, c0, c1, c2, rfl⟩ := hb
  interval_cases i <;> interval_cases j <;> rfl

theorem countEmpty_setCell {b : Grid} (hb : Shaped b) {i j : Nat}
    (hi : i < 3) (hj : j < 3) (hc : cellAt b i j = none) (s : String) :
    countEmpty (setCell b i j (some s)) + 1 = countEmpty b := by
  unfold countEmpty
  rw [flatten_setCell hb hi hj]
  exact countP_set_of_get _ _ _ none (some s)
    (by rw [flatten_cellAt hb hi hj, hc]) rfl rfl

theorem full_of_no_available {b : Grid} (hb : Shaped b)
    (h : get_available_moves b = []) : is_board_full b = true := by
  obtain ⟨a0, a1, a2, b0, b1, b2, c0, c1, c2, rfl⟩ := hb
  simp [get_available_moves, List.range_succ, cellAt] at h
  simpa [is_board_full, Bool.eq_false_iff, Option.isNone_iff_eq_none,
    Option.isSome_iff_ne_none] using h

/-! ## Invariant preservation (C3) -/

theorem makeMoveOpt_false {b : Grid} {row1 col1 : Option Int} {s : String}
    (h : (makeMoveOpt b row1 col1 s).1 = false) :
    (makeMoveOpt b row1 col1 s).2 = b := by
  cases row1 with
  | none => rfl
  | some r =>
    cases col1 with
    | none => rfl
    | some c => exact make_move_false_eq h

theorem makeMoveOpt_true_spec {b : Grid} {row1 col1 : Option Int} {s : String}
    (h : (makeMoveOpt b row1 col1 s).1 = true) :
    ∃ r c : Int, row1 = some r ∧ col1 = some c ∧ r.toNat < 3 ∧ c.toNat < 3 ∧
      cellAt b r.toNat c.toNat = none ∧
      (makeMoveOpt b row1 col1 s).2 = setCell b r.toNat c.toNat (some s) := by
  cases row1 with
  | none => simp [makeMoveOpt] at h
  | some r =>
    cases col1 with
    | none => simp [makeMoveOpt] at h
    | some c =>
      rcases make_move_cases b r c s with hcase | ⟨h0, h2, h0c, h2c, hcell, heq⟩
      · have h' : (Board.make_move b r c s).1 = true := h
        rw [hcase] at h'
        cases h'
      · refine ⟨r, c, rfl, rfl, by omega, by omega, hcell, ?_⟩
        show (Board.make_move b r c s).2 = _
        rw [heq]

theorem pyTruthy_ne_none {o : Option String} (h : pyTruthy o = true) : o ≠ none := by
  cases o with
  | none => cases h
  | some s => simp

theorem Inv_of_fields_eq {g g' : Game} (h : Inv g)
    (hb : g'.board = g.board) (hh : g'.move_history = g.move_history)
    (hgo : g'.game_over = g.game_over) (hw : g'.winner = g.winner)
    (hd : g'.is_draw = g.is_draw) : Inv g' := by
  unfold Inv at h ⊢
  rw [hb, hh, hgo, hw, hd]
  exact h

theorem Inv_log_game_summary {g : Game} (h : Inv g) :
    Inv (Game.log_game_summary g) := by
  unfold Game.log_game_summary
  split
  · exact Inv_of_fields_eq h rfl rfl rfl rfl rfl
  · exact h

theorem Inv_attempt_phase {g : Game} (avail : List Move) (row1 col1 : Option Int)
    (md : Option MoveMetadata)
    (hsh : Shaped g.board) (hsum : g.move_history.length + countEmpty g.board = 9)
    (hgo : g.game_over = false) (hw : g.winner = none) (hd : g.is_draw = false)
    (hfull : is_board_full g.board = false) :
    Inv (Game.attempt_phase g avail row1 col1 md).2 := by
  have hInv : Inv g :=
    ⟨hsh, hsum, fun _ => ⟨hw, hd, hfull⟩, fun hT => by rw [hgo] at hT; cases hT⟩
  unfold Game.attempt_phase
  by_cases hv : (makeMoveOpt g.board row1 col1 g.currentPlayer.symbol).1 = false
  · have hb2 := makeMoveOpt_false hv
    simp only [hv, hb2, eq_self_iff_true, if_true]
    split
    · exact Inv_of_fields_eq hInv rfl rfl rfl rfl rfl
    · exact Inv_of_fields_eq hInv rfl rfl rfl rfl rfl
  · have hv' : (makeMoveOpt g.board row1 col1 g.currentPlayer.symbol).1 = true := by
      simpa using hv
    obtain ⟨r, c, hr, hc, hrn, hcn, hcell, hb2⟩ := makeMoveOpt_true_spec hv'
    have hshB : Shaped (setCell g.board r.toNat c.toNat (some g.currentPlayer.symbol)) :=
      shaped_setCell hsh hrn hcn _
    have hcnt :
        countEmpty (setCell g.board r.toNat c.toNat (some g.currentPlayer.symbol)) + 1
          = countEmpty g.board :=
      countEmpty_setCell hsh hrn hcn hcell _
    simp only [hv', hb2, Bool.true_eq_false, if_false]
    by_cases hel : g.enable_logging = true <;>
      simp only [hel, Bool.false_eq_true, eq_self_iff_true, if_true, if_false] <;>
    · by_cases hwin :
          pyTruthy (check_winner
            (setCell g.board r.toNat c.toNat (some g.currentPlayer.symbol))) = true
      · simp only [hwin, eq_self_iff_true, if_true]
        refine Inv_log_game_summary ⟨hshB, ?_, ?_, ?_⟩
        · simp only [List.length_append, List.length_cons, List.length_nil]
          omega
        · intro hcon
          cases hcon
        · intro _
          exact Or.inl ⟨pyTruthy_ne_none hwin, hd⟩
      · have hwin' : pyTruthy (check_winner
            (setCell g.board r.toNat c.toNat (some g.currentPlayer.symbol))) = false := by
          simpa using hwin
        simp only [hwin', Bool.false_eq_true, if_false]
        by_cases hfull2 :
            is_board_full
              (setCell g.board r.toNat c.toNat (some g.currentPlayer.symbol)) = true
        · simp only [hfull2, eq_self_iff_true, if_true]
          refine Inv_log_game_summary ⟨hshB, ?_, ?_, ?_⟩
          · simp only [List.length_append, List.length_cons, List.length_nil]
            omega
          · intro hcon
            cases hcon
          · intro _
            exact Or.inr ⟨hw, rfl, hfull2⟩
        · have hfull2' :
              is_board_full
                (setCell g.board r.toNat c.toNat (some g.currentPlayer.symbol)) = false := by
            simpa using hfull2
          simp only [hfull2', Bool.false_eq_true, if_false]
          refine ⟨hshB, ?_, ?_, ?_⟩
          · simp only [Game.switch_player, List.length_append, List.length_cons,
              List.length_nil]
            omega
          · intro _
            exact ⟨hw, hd, hfull2'⟩
          · intro hcon
            have hcon' : g.game_over = true := hcon
            rw [hgo] at hcon'
            cases hcon'

theorem setCurrentPlayer_proj (g : Game) (p : Player) :
    (g.setCurrentPlayer p).board = g.board ∧
    (g.setCurrentPlayer p).move_history = g.move_history ∧
    (g.setCurrentPlayer p).game_over = g.game_over ∧
    (g.setCurrentPlayer p).winner = g.winner ∧
    (g.setCurrentPlayer p).is_draw = g.is_draw ∧
    (g.setCurrentPlayer p).enable_logging = g.enable_logging := by
  cases hc : g.current <;> simp [Game.setCurrentPlayer, hc]

theorem Inv_make_move {g : Game} (h : Inv g) (row0 col0 : Option Int) (orc : Oracle) :
    Inv (g.make_move row0 col0 orc).2 := by
  obtain ⟨hsh, hsum, hnot, hover⟩ := h
  unfold Game.make_move
  by_cases hgo : g.game_over = true
  · simp only [hgo, if_true]
    exact ⟨hsh, hsum, hnot, hover⟩
  · have hgo' : g.game_over = false := by simpa using hgo
    obtain ⟨hw, hd, hfull⟩ := hnot hgo'
    simp only [hgo', Bool.false_eq_true, if_false]
    by_cases hav : get_available_moves g.board = []
    · simp only [hav, if_true]
      refine Inv_log_game_summary ⟨hsh, hsum, ?_, ?_⟩
      · intro hcon
        cases hcon
      · intro _
        exact Or.inr ⟨hw, rfl, full_of_no_available hsh hav⟩
    · simp only [hav, if_false]
      by_cases hrc : (row0.isNone || col0.isNone) = true
      · simp only [hrc, if_true]
        rcases hres : ((g.currentPlayer).choose_move (get_available_moves g.board)
            (some g.board) orc).1 with _ | m <;>
          simp only [hres] <;>
        · obtain ⟨e1, e2, e3, e4, e5, _⟩ := setCurrentPlayer_proj g
            ((g.currentPlayer).choose_move (get_available_moves g.board)
              (some g.board) orc).2.2
          exact Inv_attempt_phase _ _ _ _ (by rw [e1]; exact hsh)
            (by rw [e1, e2]; exact hsum) (e3.trans hgo') (e4.trans hw)
            (e5.trans hd) (by rw [e1]; exact hfull)
      · simp only [hrc, Bool.false_eq_true, if_false]
        exact Inv_attempt_phase _ _ _ _ hsh hsum hgo' hw hd hfull

theorem Inv_mkGame (game_id : String) (px po : Player) (el : Bool) :
    Inv (mkGame game_id px po el) := by
  refine ⟨shaped_emptyGrid, rfl, fun _ => ⟨rfl, rfl, rfl⟩, fun hcon => ?_⟩
  cases hcon

theorem Inv_reset (g : Game) : Inv g.reset := by
  refine ⟨shaped_emptyGrid, rfl, fun _ => ⟨rfl, rfl, rfl⟩, fun hcon => ?_⟩
  cases hcon

theorem Inv_reachable {g : Game} (h : Reachable g) : Inv g := by
  induction h with
  | init game_id px po el => exact Inv_mkGame game_id px po el
  | move row0 col0 orc _ ih => exact Inv_make_move ih row0 col0 orc
  | reset _ ih => exact Inv_reset _

/-- C3: in every state reachable from construction by any sequence of
`make_move` and `reset` calls, `game_over` holds exactly when a winner is
set or the board is full with no winner; a set winner and the draw flag
never hold together; and the move history never exceeds 9 entries. -/
theorem C3_reachable_invariants (g : Game) (h : Reachable g) :
    (g.game_over = true ↔
      (g.winner ≠ none ∨ (is_board_full g.board = true ∧ g.winner = none))) ∧
    ¬(g.winner ≠ none ∧ g.is_draw = true) ∧
    g.move_history.length ≤ 9 := by
  obtain ⟨hsh, hsum, hnot, hover⟩ := Inv_reachable h
  refine ⟨⟨?_, ?_⟩, ?_, ?_⟩
  · intro hgo
    rcases hover hgo with ⟨hwn, _⟩ | ⟨hwn, _, hfull⟩
    · exact Or.inl hwn
    · exact Or.inr ⟨hfull, hwn⟩
  · intro hrhs
    by_contra hgo
    have hgo' : g.game_over = false := by simpa using hgo
    obtain ⟨hwn, hdn, hfull⟩ := hnot hgo'
    rcases hrhs with h1 | ⟨h1, _⟩
    · exact h1 hwn
    · rw [h1] at hfull
      cases hfull
  · rintro ⟨hwn, hdy⟩
    by_cases hgo : g.game_over = true
    · rcases hover hgo with ⟨_, hdn⟩ | ⟨hwn', _, _⟩
      · rw [hdy] at hdn
        cases hdn
      · exact hwn hwn'
    · have hgo' : g.game_over = false := by simpa using hgo
      exact hwn (hnot hgo').1
  · omega

/-- Witness for C3 at a freshly constructed game. -/
theorem C3_reachable_invariants_witness :
    (demoGame.game_over = true ↔
      (demoGame.winner ≠ none ∨
        (is_board_full demoGame.board = true ∧ demoGame.winner = none))) ∧
    ¬(demoGame.winner ≠ none ∧ demoGame.is_draw = true) ∧
    demoGame.move_history.length ≤ 9 :=
  C3_reachable_invariants demoGame
    (Reachable.init "demo" (Player.mkDefault "X" "Player X")
      (Player.mkDefault "O" "Player O") true)

end TicTacToe
